import Mathlib

/-!
Verification of the Pi-hole Prometheus exporter (`src/pihole-exporter.py`),
shallowly embedded in Lean 4.

Modelling conventions:
* All metric values in the script are Python floats obtained as `float(n)` of
  integer counts; they are modelled as `Int`, and printing a float value is
  modelled as `toString n ++ ".0"` (Python renders integer-valued floats this
  way for the magnitudes occurring here).
* JSON values returned by the HTTP API are modelled by `PyVal`: numbers and
  nested objects, which is all the fallback code inspects; Python truthiness
  (`0`, `{}`, `None` are falsy) is modelled by `PyVal.truthy` / `optTruthy`.
* Database rows (from `sqlite3 -json`) are association lists of column name to
  `DbVal` (number or string); `row.get(k, d)` is modelled by `rowNum` /
  `rowStr`.  The count columns produced by the SQL in the script are always
  numbers and the text columns always strings.
* `dict` objects keyed by strings are modelled as insertion-ordered
  association lists; the keys fed into them come from SQL `GROUP BY` results
  and are therefore unique.
* Exceptions are modelled by `Option` where the script catches them.
-/

set_option autoImplicit false

/-- JSON-ish value as inspected by the HTTP-API fallback code: a number or a
nested object.  (The fallback only reads numeric fields and first-level nested
dictionaries.) -/
inductive PyVal where
  | jnum (n : Int)
  | jobj (fields : List (String × PyVal))

/-- Python truthiness of a `PyVal`: `0` and `{}` are falsy. -/
def PyVal.truthy : PyVal → Bool
  | .jnum n => n != 0
  | .jobj l => !l.isEmpty

/-- Truthiness of an optional value: `None` is falsy. -/
def optTruthy : Option PyVal → Bool
  | some v => v.truthy
  | none => false

/-- `data.get(k)` on a JSON object: first binding of the key, else `None`. -/
def objGet (data : List (String × PyVal)) (k : String) : Option PyVal :=
  (data.find? (fun p => p.1 == k)).map Prod.snd

/-- Python `x or y`: `x` if truthy, else `y`. -/
def pyOr (x y : Option PyVal) : Option PyVal :=
  match x with
  | some v => if v.truthy then some v else y
  | none => y

/-- `float(x or 0)` where `x` is an optional JSON value: a falsy `x` gives
`0.0`; a truthy number converts; `float` of a dictionary raises (`none`). -/
def floatOrZero (x : Option PyVal) : Option Int :=
  match x with
  | some (.jnum n) => if n != 0 then some n else some 0
  | some (.jobj l) => if l.isEmpty then some 0 else none
  | none => some 0

/-- The five canonical fields the API fallback resolves from a JSON
response (`dns_queries`, `ads_blocked`, `forwarded`, `cached`, `clients`). -/
structure ApiFields where
  dns_queries : Option PyVal
  ads_blocked : Option PyVal
  forwarded : Option PyVal
  cached : Option PyVal
  clients : Option PyVal

/-- One step of the nested-dictionary scan
(`for v in data.values(): if isinstance(v, dict): ...`):
each of the three probed fields keeps its current value if truthy, else takes
the nested dictionary's candidate key. -/
def nestedStep (acc : ApiFields) (v : PyVal) : ApiFields :=
  match v with
  | .jobj fl =>
    { acc with
      dns_queries := pyOr acc.dns_queries (objGet fl "dns_queries_today")
      ads_blocked := pyOr acc.ads_blocked (objGet fl "ads_blocked_today")
      clients := pyOr acc.clients (objGet fl "unique_clients") }
  | .jnum _ => acc

/-- Field resolution of the API fallback: ordered `or`-chains of candidate
keys, then the first-level-nested rescan when none of the three probes
(`dns_queries`, `ads_blocked`, `clients`) is truthy. -/
def resolveFields (data : List (String × PyVal)) : ApiFields :=
  let f : ApiFields :=
    { dns_queries := pyOr (objGet data "dns_queries_today")
        (pyOr (objGet data "queries") (objGet data "dns_queries_total"))
      ads_blocked := pyOr (objGet data "ads_blocked_today")
        (pyOr (objGet data "ads_blocked_total") (objGet data "dns_blocked_total"))
      forwarded := pyOr (objGet data "queries_forwarded") (objGet data "forwarded")
      cached := pyOr (objGet data "queries_cached") (objGet data "cached")
      clients := pyOr (objGet data "unique_clients") (objGet data "clients") }
  if !(optTruthy f.dns_queries || optTruthy f.ads_blocked || optTruthy f.clients) then
    (data.map Prod.snd).foldl nestedStep f
  else
    f

/-- The `metrics_cache` dictionary: canonical metric name to float value. -/
abbrev MetricsCache := List (String × Int)

/-- `metrics_cache.get(k)`. -/
def mcGet (mc : MetricsCache) (k : String) : Option Int :=
  (mc.find? (fun p => p.1 == k)).map Prod.snd

/-- The all-zero `metrics_cache` installed when every source fails. -/
def zerosCache : MetricsCache :=
  [("dns_queries_total", 0), ("dns_blocked_total", 0), ("dns_forwarded_total", 0),
   ("dns_cached_total", 0), ("clients_total", 0), ("devices_total", 0),
   ("devices_active_24h", 0), ("dns_queries_24h", 0), ("dns_blocked_24h", 0),
   ("dns_forwarded_24h", 0), ("dns_cached_24h", 0), ("clients_24h", 0)]

/-- Building `metrics_cache` from resolved API fields; `none` when a `float`
conversion raises (truthy non-numeric value), in which case the surrounding
`except` moves on to the next endpoint. -/
def buildApiCache (f : ApiFields) : Option MetricsCache :=
  match floatOrZero f.dns_queries, floatOrZero f.ads_blocked, floatOrZero f.forwarded,
        floatOrZero f.cached, floatOrZero f.clients with
  | some dq, some ab, some fw, some ca, some cl =>
    some [("dns_queries_total", dq), ("dns_blocked_total", ab),
          ("dns_forwarded_total", fw), ("dns_cached_total", ca),
          ("clients_total", cl), ("devices_total", 0), ("devices_active_24h", 0),
          ("dns_queries_24h", dq), ("dns_blocked_24h", ab),
          ("dns_forwarded_24h", fw), ("dns_cached_24h", ca), ("clients_24h", cl)]
  | _, _, _, _, _ => none

/-- One HTTP endpoint attempt: the request raised, or it completed with a
status code and (for status 200) a body that is or is not parseable JSON. -/
inductive ApiAttempt where
  | failed
  | resp (status : Int) (body : Option (List (String × PyVal)))

/-- The API fallback loop over the endpoint list: skip failed requests,
non-200 responses, non-JSON bodies, responses none of whose probed fields is
truthy, and responses whose field conversion raises; take the first usable
response's cache; all endpoints exhausted gives the all-zero cache. -/
def apiFallback : List ApiAttempt → MetricsCache
  | [] => zerosCache
  | .failed :: rest => apiFallback rest
  | .resp status body :: rest =>
    if status != 200 then apiFallback rest
    else
      match body with
      | none => apiFallback rest
      | some data =>
        let f := resolveFields data
        if optTruthy f.dns_queries || optTruthy f.ads_blocked || optTruthy f.clients then
          match buildApiCache f with
          | some mc => mc
          | none => apiFallback rest
        else apiFallback rest

/-- Whether the fallback loop skips an endpoint attempt and tries the next
one.  (Spec side of the loop's behaviour, compared against `apiFallback`.) -/
def attemptSkipped : ApiAttempt → Bool
  | .failed => true
  | .resp status body =>
    if status != 200 then true
    else
      match body with
      | none => true
      | some data =>
        let f := resolveFields data
        if optTruthy f.dns_queries || optTruthy f.ads_blocked || optTruthy f.clients then
          (buildApiCache f).isNone
        else true

/-- A database column value: number or text. -/
inductive DbVal where
  | vnum (n : Int)
  | vstr (s : String)
deriving Repr, DecidableEq

/-- A database row as parsed from `sqlite3 -json` output. -/
abbrev DbRow := List (String × DbVal)

/-- `row.get(k)`. -/
def dbLookup (row : DbRow) (k : String) : Option DbVal :=
  (row.find? (fun p => p.1 == k)).map Prod.snd

/-- `float(row.get(k, d))` for a numeric column (count columns are always
numbers in the rows the script's SQL produces). -/
def rowNum (row : DbRow) (k : String) (d : Int) : Int :=
  match dbLookup row k with
  | some (.vnum n) => n
  | some (.vstr _) => d
  | none => d

/-- `row.get(k, d)` for a text column, as later stringified for a label. -/
def rowStr (row : DbRow) (k : String) (d : String) : String :=
  match dbLookup row k with
  | some (.vstr s) => s
  | some (.vnum n) => toString n
  | none => d

/-- `metrics_cache` built from a successful aggregate-statistics row:
`float(stats.get(raw_key, 0))` per canonical key. -/
def statsToCache (stats : DbRow) : MetricsCache :=
  [("dns_queries_total", rowNum stats "queries_total" 0),
   ("dns_blocked_total", rowNum stats "blocked_total" 0),
   ("dns_forwarded_total", rowNum stats "forwarded_total" 0),
   ("dns_cached_total", rowNum stats "cached_total" 0),
   ("clients_total", rowNum stats "unique_clients_total" 0),
   ("devices_total", rowNum stats "devices_total" 0),
   ("devices_active_24h", rowNum stats "devices_active_24h" 0),
   ("dns_queries_24h", rowNum stats "queries_24h" 0),
   ("dns_blocked_24h", rowNum stats "blocked_24h" 0),
   ("dns_forwarded_24h", rowNum stats "forwarded_24h" 0),
   ("dns_cached_24h", rowNum stats "cached_24h" 0),
   ("clients_24h", rowNum stats "unique_clients_24h" 0)]

/-- Python `str.replace` for a single-character target: every occurrence of
`target` in the list is replaced by `repl`, left to right, replacements not
rescanned. -/
def pyReplace (target : Char) (repl : List Char) : List Char → List Char
  | [] => []
  | c :: rest =>
    if c = target then repl ++ pyReplace target repl rest
    else c :: pyReplace target repl rest

/-- `escape_label_value`: `None` renders as `unknown`; otherwise backslashes,
double-quotes and newlines are replaced in that order, exactly as the chained
`str.replace` calls in the source. -/
def escape_label_value : Option String → String
  | none => "unknown"
  | some s =>
    String.mk
      (pyReplace '\n' ['\\', 'n']
        (pyReplace '"' ['\\', '"']
          (pyReplace '\\' ['\\', '\\'] s.toList)))

/-- Per-character escaping map.  (Spec side: "backslash-escaping backslashes
and double-quotes and converting literal newlines to the two-character escape
sequence"; compared below against the source's chained replaces.) -/
def escChar (c : Char) : List Char :=
  if c = '\\' then ['\\', '\\']
  else if c = '"' then ['\\', '"']
  else if c = '\n' then ['\\', 'n']
  else [c]

/-- Scanning an escaped label left to right, consuming a backslash together
with the character it escapes: `true` iff no bare double-quote and no literal
newline is ever encountered. -/
def noUnescaped : List Char → Bool
  | [] => true
  | [c] => !(c = '"' || c = '\n')
  | c :: c2 :: rest =>
    if c = '\\' then noUnescaped rest
    else if c = '"' || c = '\n' then false
    else noUnescaped (c2 :: rest)

/-- One entry of `per_client_metrics`: the per-client counters. -/
structure ClientStats where
  queries : Int
  blocked : Int
  cached : Int
  forwarded : Int
deriving Repr, DecidableEq

/-- One entry of `top_domains`. -/
structure DomainInfo where
  domain : String
  queries : Int
  blocked : Int
deriving Repr, DecidableEq

/-- One entry of `top_permitted_domains` / `top_blocked_domains`. -/
structure DomainCount where
  domain : String
  queries : Int
deriving Repr, DecidableEq

/-- One entry of `top_clients`, built from a `network`-table row. -/
structure ClientInfo where
  mac : String
  name : String
  ip : String
  queries : Int
deriving Repr, DecidableEq

/-- The exporter's global mutable state: the metrics cache and its sibling
collections (`cache_time` is not modelled). -/
structure ExporterState where
  metrics_cache : MetricsCache
  per_client_metrics : List (String × ClientStats)
  top_domains : List DomainInfo
  top_clients : List ClientInfo
  query_types : List (String × Int)
  upstream_servers : List (String × Int)
  top_permitted_domains : List DomainCount
  top_blocked_domains : List DomainCount
deriving Repr, DecidableEq

/-- The state at process start: empty cache and collections. -/
def initialState : ExporterState :=
  { metrics_cache := [], per_client_metrics := [], top_domains := [],
    top_clients := [], query_types := [], upstream_servers := [],
    top_permitted_domains := [], top_blocked_domains := [] }

/-- A per-client row of the per-client SQL query. -/
def clientEntryOfRow (row : DbRow) : String × ClientStats :=
  (rowStr row "client" "unknown",
   { queries := rowNum row "queries" 0, blocked := rowNum row "blocked" 0,
     cached := rowNum row "cached" 0, forwarded := rowNum row "forwarded" 0 })

/-- A `top_domains` row of the domain SQL query. -/
def domainInfoOfRow (row : DbRow) : DomainInfo :=
  { domain := rowStr row "domain" "unknown",
    queries := rowNum row "queries" 0, blocked := rowNum row "blocked" 0 }

/-- A `top_clients` row of the `network`-table query: the IP field is always
set to the empty string (`"ip": ""` in the source — IP not in network table). -/
def clientInfoOfRow (row : DbRow) : ClientInfo :=
  { mac := rowStr row "hwaddr" "", name := rowStr row "macVendor" "unknown",
    ip := "", queries := rowNum row "numQueries" 0 }

/-- The query-type number-to-name table of the source. -/
def type_names : List (Int × String) :=
  [(1, "A"), (2, "AAAA"), (3, "ANY"), (4, "SRV"), (5, "SOA"), (6, "PTR"),
   (7, "TXT"), (8, "NAPTR"), (9, "MX"), (10, "DS"), (11, "RRSIG"),
   (12, "DNSKEY"), (13, "NS"), (14, "OTHER"), (15, "SVCB"), (16, "HTTPS")]

/-- `type_names.get(qtype, f"TYPE\x7bqtype\x7d")`. -/
def typeName (t : Int) : String :=
  match (type_names.find? (fun p => p.1 == t)).map Prod.snd with
  | some s => s
  | none => "TYPE" ++ toString t

/-- A `query_types` row. -/
def queryTypeOfRow (row : DbRow) : String × Int :=
  (typeName (rowNum row "type" 0), rowNum row "count" 0)

/-- An `upstream_servers` row. -/
def upstreamOfRow (row : DbRow) : String × Int :=
  (rowStr row "forward" "unknown", rowNum row "count" 0)

/-- A `top_permitted_domains` / `top_blocked_domains` row. -/
def domainCountOfRow (row : DbRow) : DomainCount :=
  { domain := rowStr row "domain" "unknown", queries := rowNum row "queries" 0 }

/-- The inputs of one refresh cycle: the result of each database query (a
failing query returns the empty row list — `query_ftl_database` catches every
exception and returns `[]`) and the HTTP endpoint attempts used when the
aggregate query yields no rows. -/
structure FetchInputs where
  statsResult : List DbRow
  apiAttempts : List ApiAttempt
  clientResults : List DbRow
  domainResults : List DbRow
  networkResults : List DbRow
  queryTypeResults : List DbRow
  upstreamResults : List DbRow
  permittedResults : List DbRow
  blockedResults : List DbRow

/-- `fetch_pihole_stats`: the state produced by one refresh cycle from the
given query results.  Each metric group is computed from its own query alone;
the aggregate cache falls back to the HTTP endpoints when the aggregate query
yields no rows. -/
def fetch_pihole_stats (inp : FetchInputs) : ExporterState :=
  { metrics_cache :=
      match inp.statsResult with
      | stats :: _ => statsToCache stats
      | [] => apiFallback inp.apiAttempts
    per_client_metrics := inp.clientResults.map clientEntryOfRow
    top_domains := inp.domainResults.map domainInfoOfRow
    top_clients := inp.networkResults.map clientInfoOfRow
    query_types := inp.queryTypeResults.map queryTypeOfRow
    upstream_servers := inp.upstreamResults.map upstreamOfRow
    top_permitted_domains := inp.permittedResults.map domainCountOfRow
    top_blocked_domains := inp.blockedResults.map domainCountOfRow }

/-- Python `str(float(n))` for the integer-valued counts of this program. -/
def fmtFloat (n : Int) : String := toString n ++ ".0"

/-- Rendering `metrics_cache.get(k, 0)` in an f-string: a stored float prints
with a trailing `.0`, the integer default `0` prints as `0`. -/
def mcRender (mc : MetricsCache) (k : String) : String :=
  match mcGet mc k with
  | some n => fmtFloat n
  | none => "0"

/-- The twelve scalar blocks of `format_metrics`, in source order. -/
def scalarLines (st : ExporterState) : List String :=
  ["# HELP pihole_dns_queries_total Total DNS queries",
   "# TYPE pihole_dns_queries_total counter",
   "pihole_dns_queries_total " ++ mcRender st.metrics_cache "dns_queries_total",
   "",
   "# HELP pihole_dns_blocked_total Total blocked DNS queries",
   "# TYPE pihole_dns_blocked_total counter",
   "pihole_dns_blocked_total " ++ mcRender st.metrics_cache "dns_blocked_total",
   "",
   "# HELP pihole_dns_forwarded_total Total forwarded DNS queries",
   "# TYPE pihole_dns_forwarded_total counter",
   "pihole_dns_forwarded_total " ++ mcRender st.metrics_cache "dns_forwarded_total",
   "",
   "# HELP pihole_dns_cached_total Total cached DNS queries",
   "# TYPE pihole_dns_cached_total counter",
   "pihole_dns_cached_total " ++ mcRender st.metrics_cache "dns_cached_total",
   "",
   "# HELP pihole_clients_total Total unique clients",
   "# TYPE pihole_clients_total gauge",
   "pihole_clients_total " ++ mcRender st.metrics_cache "clients_total",
   "",
   "# HELP pihole_dns_queries_24h DNS queries in last 24 hours",
   "# TYPE pihole_dns_queries_24h gauge",
   "pihole_dns_queries_24h " ++ mcRender st.metrics_cache "dns_queries_24h",
   "",
   "# HELP pihole_dns_blocked_24h Blocked queries in last 24 hours",
   "# TYPE pihole_dns_blocked_24h gauge",
   "pihole_dns_blocked_24h " ++ mcRender st.metrics_cache "dns_blocked_24h",
   "",
   "# HELP pihole_dns_forwarded_24h Forwarded queries in last 24 hours",
   "# TYPE pihole_dns_forwarded_24h gauge",
   "pihole_dns_forwarded_24h " ++ mcRender st.metrics_cache "dns_forwarded_24h",
   "",
   "# HELP pihole_dns_cached_24h Cached queries in last 24 hours",
   "# TYPE pihole_dns_cached_24h gauge",
   "pihole_dns_cached_24h " ++ mcRender st.metrics_cache "dns_cached_24h",
   "",
   "# HELP pihole_clients_24h Unique clients in last 24 hours",
   "# TYPE pihole_clients_24h gauge",
   "pihole_clients_24h " ++ mcRender st.metrics_cache "clients_24h",
   "",
   "# HELP pihole_devices_total Total network devices (by MAC address)",
   "# TYPE pihole_devices_total gauge",
   "pihole_devices_total " ++ mcRender st.metrics_cache "devices_total",
   "",
   "# HELP pihole_devices_active_24h Active network devices in last 24 hours",
   "# TYPE pihole_devices_active_24h gauge",
   "pihole_devices_active_24h " ++ mcRender st.metrics_cache "devices_active_24h",
   ""]

/-- `pihole_client_queries_total` series lines (one per per-client entry). -/
def clientQueriesLines (st : ExporterState) : List String :=
  st.per_client_metrics.map (fun p =>
    "pihole_client_queries_total\x7bclient=\"" ++ escape_label_value (some p.1)
      ++ "\"\x7d " ++ fmtFloat p.2.queries)

/-- `pihole_client_blocked_total` series lines. -/
def clientBlockedLines (st : ExporterState) : List String :=
  st.per_client_metrics.map (fun p =>
    "pihole_client_blocked_total\x7bclient=\"" ++ escape_label_value (some p.1)
      ++ "\"\x7d " ++ fmtFloat p.2.blocked)

/-- `pihole_client_cached_total` series lines. -/
def clientCachedLines (st : ExporterState) : List String :=
  st.per_client_metrics.map (fun p =>
    "pihole_client_cached_total\x7bclient=\"" ++ escape_label_value (some p.1)
      ++ "\"\x7d " ++ fmtFloat p.2.cached)

/-- `pihole_client_forwarded_total` series lines. -/
def clientForwardedLines (st : ExporterState) : List String :=
  st.per_client_metrics.map (fun p =>
    "pihole_client_forwarded_total\x7bclient=\"" ++ escape_label_value (some p.1)
      ++ "\"\x7d " ++ fmtFloat p.2.forwarded)

/-- `pihole_domain_queries_total` series lines: `top_domains[:20]`. -/
def domainQueriesLines (st : ExporterState) : List String :=
  (st.top_domains.take 20).map (fun di =>
    "pihole_domain_queries_total\x7bdomain=\"" ++ escape_label_value (some di.domain)
      ++ "\"\x7d " ++ fmtFloat di.queries)

/-- `pihole_domain_blocked_total` series lines: `top_domains[:20]`. -/
def domainBlockedLines (st : ExporterState) : List String :=
  (st.top_domains.take 20).map (fun di =>
    "pihole_domain_blocked_total\x7bdomain=\"" ++ escape_label_value (some di.domain)
      ++ "\"\x7d " ++ fmtFloat di.blocked)

/-- `pihole_network_client_queries_total` series lines: the source iterates
the whole of `top_clients`, with no slice. -/
def networkClientLines (st : ExporterState) : List String :=
  st.top_clients.map (fun ci =>
    "pihole_network_client_queries_total\x7bmac=\"" ++ escape_label_value (some ci.mac)
      ++ "\",name=\"" ++ escape_label_value (some ci.name)
      ++ "\",ip=\"" ++ escape_label_value (some ci.ip)
      ++ "\"\x7d " ++ fmtFloat ci.queries)

/-- `pihole_query_type_total` series lines. -/
def queryTypeLines (st : ExporterState) : List String :=
  st.query_types.map (fun p =>
    "pihole_query_type_total\x7btype=\"" ++ escape_label_value (some p.1)
      ++ "\"\x7d " ++ fmtFloat p.2)

/-- `pihole_upstream_queries_total` series lines. -/
def upstreamLines (st : ExporterState) : List String :=
  st.upstream_servers.map (fun p =>
    "pihole_upstream_queries_total\x7bserver=\"" ++ escape_label_value (some p.1)
      ++ "\"\x7d " ++ fmtFloat p.2)

/-- `pihole_top_permitted_domains_total` series lines: `[:20]`. -/
def permittedLines (st : ExporterState) : List String :=
  (st.top_permitted_domains.take 20).map (fun dc =>
    "pihole_top_permitted_domains_total\x7bdomain=\"" ++ escape_label_value (some dc.domain)
      ++ "\"\x7d " ++ fmtFloat dc.queries)

/-- `pihole_top_blocked_domains_total` series lines: `[:20]`. -/
def blockedLines (st : ExporterState) : List String :=
  (st.top_blocked_domains.take 20).map (fun dc =>
    "pihole_top_blocked_domains_total\x7bdomain=\"" ++ escape_label_value (some dc.domain)
      ++ "\"\x7d " ++ fmtFloat dc.queries)

/-- `format_metrics`: the full list of exposition lines in source order. -/
def format_metrics (st : ExporterState) : List String :=
  scalarLines st
  ++ ["# HELP pihole_client_queries_total DNS queries per client (24h)",
      "# TYPE pihole_client_queries_total gauge"]
  ++ clientQueriesLines st
  ++ ["", "# HELP pihole_client_blocked_total Blocked queries per client (24h)",
      "# TYPE pihole_client_blocked_total gauge"]
  ++ clientBlockedLines st
  ++ ["", "# HELP pihole_client_cached_total Cached queries per client (24h)",
      "# TYPE pihole_client_cached_total gauge"]
  ++ clientCachedLines st
  ++ ["", "# HELP pihole_client_forwarded_total Forwarded queries per client (24h)",
      "# TYPE pihole_client_forwarded_total gauge"]
  ++ clientForwardedLines st
  ++ ["", "# HELP pihole_domain_queries_total DNS queries per domain (24h)",
      "# TYPE pihole_domain_queries_total gauge"]
  ++ domainQueriesLines st
  ++ ["", "# HELP pihole_domain_blocked_total Blocked queries per domain (24h)",
      "# TYPE pihole_domain_blocked_total gauge"]
  ++ domainBlockedLines st
  ++ ["", "# HELP pihole_network_client_queries_total Total queries per network client",
      "# TYPE pihole_network_client_queries_total gauge"]
  ++ networkClientLines st
  ++ ["", "# HELP pihole_query_type_total DNS queries by type (24h)",
      "# TYPE pihole_query_type_total gauge"]
  ++ queryTypeLines st
  ++ ["", "# HELP pihole_upstream_queries_total Queries forwarded to upstream servers (24h)",
      "# TYPE pihole_upstream_queries_total gauge"]
  ++ upstreamLines st
  ++ ["", "# HELP pihole_top_permitted_domains_total Top permitted domains (24h)",
      "# TYPE pihole_top_permitted_domains_total gauge"]
  ++ permittedLines st
  ++ ["", "# HELP pihole_top_blocked_domains_total Top blocked domains (24h)",
      "# TYPE pihole_top_blocked_domains_total gauge"]
  ++ blockedLines st

/-- `"\n".join(lines)`: the body served for `/metrics`. -/
def format_body (st : ExporterState) : String :=
  String.intercalate "\n" (format_metrics st)

/-- An HTTP response of the exporter. -/
structure HttpResponse where
  status : Int
  body : String
deriving Repr, DecidableEq

/-- `MetricsHandler.do_GET` over the current state: `/metrics` serves the
encoded snapshot with status 200, `/health` serves `OK`, anything else 404. -/
def do_GET (st : ExporterState) (path : String) : HttpResponse :=
  if path = "/metrics" then { status := 200, body := format_body st }
  else if path = "/health" then { status := 200, body := "OK" }
  else { status := 404, body := "" }

/-- The fixed subprocess timeout (seconds) passed to `subprocess.run`. -/
def FTL_QUERY_TIMEOUT : Nat := 10

/-- One line of the subprocess's standard output: whitespace-only, a line
parsing (via `json.loads`) to a row, or malformed (parsing raises). -/
inductive OutLine where
  | blank
  | ok (row : DbRow)
  | malformed
deriving Repr

/-- Whether an output line is whitespace-only. -/
def lineBlank : OutLine → Bool
  | .blank => true
  | _ => false

/-- Whether an output line parses as JSON. -/
def lineOk : OutLine → Bool
  | .ok _ => true
  | _ => false

/-- The outcome of the `docker exec ... sqlite3 -json` subprocess: the
10-second timeout expired (raising `TimeoutExpired`), or the process
completed with an exit status and output lines. -/
inductive DockerOutcome where
  | timeoutExpired
  | completed (returncode : Int) (stdoutLines : List OutLine)

/-- The docker-exec path of `query_ftl_database`: rows are parsed from the
non-blank output lines when the exit status is zero and the output is
non-blank; a timeout, a non-zero exit status, blank output, or any
malformed line yields the empty row list (every exception is caught and
`[]` returned). -/
def query_ftl_database_docker (r : DockerOutcome) : List DbRow :=
  match r with
  | .timeoutExpired => []
  | .completed rc outLines =>
    if rc == 0 && outLines.any (fun l => !lineBlank l) then
      let nonblank := outLines.filter (fun l => !lineBlank l)
      if !nonblank.isEmpty then
        if nonblank.all lineOk then
          nonblank.filterMap (fun l =>
            match l with
            | .ok row => some row
            | _ => none)
        else []
      else []
    else []

/-!
Interleaving model of one refresh cycle against a concurrent scrape.

`fetch_pihole_stats` updates the module-level globals one after another:
`metrics_cache`, then `per_client_metrics`, `top_domains`, `top_clients`,
`query_types`, `upstream_servers`, `top_permitted_domains`,
`top_blocked_domains`.  Each rebinding of a global name is one atomic step
(Python's evaluation of a single store); the HTTP handler thread may read
the globals between any two steps.  This statement-granularity model is
conservative: the source additionally mutates the fresh collections in
place inside loops, exposing even more intermediate states, so any
non-atomicity visible here is also visible in the source.
-/

/-- One atomic rebinding of a module-level global during a refresh cycle. -/
inductive GWrite where
  | wMetrics (v : MetricsCache)
  | wPerClient (v : List (String × ClientStats))
  | wTopDomains (v : List DomainInfo)
  | wTopClients (v : List ClientInfo)
  | wQueryTypes (v : List (String × Int))
  | wUpstreams (v : List (String × Int))
  | wPermitted (v : List DomainCount)
  | wBlocked (v : List DomainCount)
deriving Repr, DecidableEq

/-- Effect of one global rebinding on the shared state. -/
def applyWrite (st : ExporterState) : GWrite → ExporterState
  | .wMetrics v => { st with metrics_cache := v }
  | .wPerClient v => { st with per_client_metrics := v }
  | .wTopDomains v => { st with top_domains := v }
  | .wTopClients v => { st with top_clients := v }
  | .wQueryTypes v => { st with query_types := v }
  | .wUpstreams v => { st with upstream_servers := v }
  | .wPermitted v => { st with top_permitted_domains := v }
  | .wBlocked v => { st with top_blocked_domains := v }

/-- The ordered global writes of one refresh cycle, in source order. -/
def cycleWrites (inp : FetchInputs) : List GWrite :=
  [.wMetrics (match inp.statsResult with
      | stats :: _ => statsToCache stats
      | [] => apiFallback inp.apiAttempts),
   .wPerClient (inp.clientResults.map clientEntryOfRow),
   .wTopDomains (inp.domainResults.map domainInfoOfRow),
   .wTopClients (inp.networkResults.map clientInfoOfRow),
   .wQueryTypes (inp.queryTypeResults.map queryTypeOfRow),
   .wUpstreams (inp.upstreamResults.map upstreamOfRow),
   .wPermitted (inp.permittedResults.map domainCountOfRow),
   .wBlocked (inp.blockedResults.map domainCountOfRow)]

/-- The state a concurrent reader observes after the first `k` writes of a
refresh cycle have been applied to the previous cycle's state `st0`. -/
def observeAt (st0 : ExporterState) (inp : FetchInputs) (k : Nat) : ExporterState :=
  ((cycleWrites inp).take k).foldl applyWrite st0

/-! ### Helper lemmas -/

theorem pyReplace_append (t : Char) (r : List Char) (a b : List Char) :
    pyReplace t r (a ++ b) = pyReplace t r a ++ pyReplace t r b := by
  induction a with
  | nil => rfl
  | cons c cs ih => by_cases h : c = t <;> simp [pyReplace, h, ih]

/-- The three chained single-character replaces of `escape_label_value`. -/
def escChain (l : List Char) : List Char :=
  pyReplace '\n' ['\\', 'n'] (pyReplace '"' ['\\', '"'] (pyReplace '\\' ['\\', '\\'] l))

theorem escChain_cons (c : Char) (t : List Char) :
    escChain (c :: t) = escChar c ++ escChain t := by
  by_cases h1 : c = '\\'
  · subst h1
    show escChain ('\\' :: t) = ['\\', '\\'] ++ escChain t
    unfold escChain
    rw [show pyReplace '\\' ['\\', '\\'] ('\\' :: t)
          = ['\\', '\\'] ++ pyReplace '\\' ['\\', '\\'] t from by simp [pyReplace]]
    rw [pyReplace_append, pyReplace_append]
    rfl
  · by_cases h2 : c = '"'
    · subst h2
      show escChain ('"' :: t) = ['\\', '"'] ++ escChain t
      unfold escChain
      rw [show pyReplace '\\' ['\\', '\\'] ('"' :: t)
            = '"' :: pyReplace '\\' ['\\', '\\'] t from by simp [pyReplace]]
      rw [show pyReplace '"' ['\\', '"'] ('"' :: pyReplace '\\' ['\\', '\\'] t)
            = ['\\', '"'] ++ pyReplace '"' ['\\', '"'] (pyReplace '\\' ['\\', '\\'] t)
            from by simp [pyReplace]]
      rw [pyReplace_append]
      rfl
    · by_cases h3 : c = '\n'
      · subst h3
        show escChain ('\n' :: t) = ['\\', 'n'] ++ escChain t
        unfold escChain
        rw [show pyReplace '\\' ['\\', '\\'] ('\n' :: t)
              = '\n' :: pyReplace '\\' ['\\', '\\'] t from by simp [pyReplace]]
        rw [show pyReplace '"' ['\\', '"'] ('\n' :: pyReplace '\\' ['\\', '\\'] t)
              = '\n' :: pyReplace '"' ['\\', '"'] (pyReplace '\\' ['\\', '\\'] t)
              from by simp [pyReplace]]
        simp [pyReplace, escChar]
      · show escChain (c :: t) = escChar c ++ escChain t
        unfold escChain
        rw [show pyReplace '\\' ['\\', '\\'] (c :: t)
              = c :: pyReplace '\\' ['\\', '\\'] t from by simp [pyReplace, h1]]
        rw [show pyReplace '"' ['\\', '"'] (c :: pyReplace '\\' ['\\', '\\'] t)
              = c :: pyReplace '"' ['\\', '"'] (pyReplace '\\' ['\\', '\\'] t)
              from by simp [pyReplace, h2]]
        rw [show pyReplace '\n' ['\\', 'n']
              (c :: pyReplace '"' ['\\', '"'] (pyReplace '\\' ['\\', '\\'] t))
              = c :: escChain t from by simp [pyReplace, h3, escChain]]
        simp [escChar, h1, h2, h3, escChain]

theorem escChain_eq_bind (l : List Char) : escChain l = l.flatMap escChar := by
  induction l with
  | nil => rfl
  | cons c t ih => rw [escChain_cons, ih, List.flatMap_cons]

theorem escape_some_eq_bind (s : String) :
    escape_label_value (some s) = String.mk (s.toList.flatMap escChar) := by
  show String.mk (escChain s.toList) = String.mk (s.toList.flatMap escChar)
  rw [escChain_eq_bind]

theorem noUnescaped_cons₂ (x : Char) (l : List Char) :
    noUnescaped ('\\' :: x :: l) = noUnescaped l := by
  simp [noUnescaped]

theorem noUnescaped_cons_other (c : Char) (l : List Char)
    (h1 : c ≠ '\\') (h2 : c ≠ '"') (h3 : c ≠ '\n') :
    noUnescaped (c :: l) = noUnescaped l := by
  cases l with
  | nil => simp [noUnescaped, h2, h3]
  | cons d r => simp [noUnescaped, h1, h2, h3]

theorem noUnescaped_bind_escChar (l : List Char) :
    noUnescaped (l.flatMap escChar) = true := by
  induction l with
  | nil => rfl
  | cons c t ih =>
    rw [List.flatMap_cons]
    by_cases h1 : c = '\\'
    · subst h1; simpa [escChar, noUnescaped_cons₂] using ih
    · by_cases h2 : c = '"'
      · subst h2; simpa [escChar, noUnescaped_cons₂] using ih
      · by_cases h3 : c = '\n'
        · subst h3; simpa [escChar, noUnescaped_cons₂] using ih
        · rw [show escChar c ++ t.flatMap escChar = c :: t.flatMap escChar
                from by simp [escChar, h1, h2, h3]]
          rw [noUnescaped_cons_other c _ h1 h2 h3, ih]

theorem newline_not_mem_bind_escChar (l : List Char) :
    '\n' ∉ l.flatMap escChar := by
  induction l with
  | nil => simp
  | cons c t ih =>
    rw [List.flatMap_cons]
    intro hmem
    rcases List.mem_append.mp hmem with hc | ht
    · by_cases h1 : c = '\\'
      · subst h1; simp [escChar] at hc
      · by_cases h2 : c = '"'
        · subst h2; simp [escChar] at hc
        · by_cases h3 : c = '\n'
          · subst h3; simp [escChar] at hc
          · simp [escChar, h1, h2, h3] at hc
            exact h3 hc.symm
    · exact ih ht

theorem pyOr_of_falsy (x y : Option PyVal) (h : optTruthy x = false) :
    pyOr x y = y := by
  cases x with
  | none => rfl
  | some v => simp_all [pyOr, optTruthy]

theorem apiFallback_skip (a : ApiAttempt) (rest : List ApiAttempt)
    (h : attemptSkipped a = true) :
    apiFallback (a :: rest) = apiFallback rest := by
  cases a with
  | failed => rfl
  | resp status body =>
    by_cases hs : (status != 200) = true
    · simp [apiFallback, hs]
    · cases body with
      | none => simp [apiFallback, hs]
      | some data =>
        simp only [attemptSkipped, hs, Bool.false_eq_true, if_false] at h
        by_cases hc : (optTruthy (resolveFields data).dns_queries
            || optTruthy (resolveFields data).ads_blocked
            || optTruthy (resolveFields data).clients) = true
        · simp only [hc, if_true] at h
          have hb : buildApiCache (resolveFields data) = none :=
            Option.isNone_iff_eq_none.mp h
          simp [apiFallback, hs, hc, hb]
        · simp [apiFallback, hs, hc]

theorem apiFallback_all_skipped (l : List ApiAttempt)
    (h : ∀ a ∈ l, attemptSkipped a = true) :
    apiFallback l = zerosCache := by
  induction l with
  | nil => rfl
  | cons a rest ih =>
    rw [apiFallback_skip a rest (h a (List.mem_cons_self a rest))]
    exact ih (fun b hb => h b (List.mem_cons_of_mem a hb))

/-- The state after a cycle in which every source failed. -/
def allZeroState : ExporterState :=
  { metrics_cache := zerosCache, per_client_metrics := [], top_domains := [],
    top_clients := [], query_types := [], upstream_servers := [],
    top_permitted_domains := [], top_blocked_domains := [] }

/-! ### Claim C6 -/

/-- C6: `escape_label_value` maps `None` to the literal token `unknown`, maps
every string by backslash-escaping backslashes and double-quotes and turning
a literal newline into the two-character sequence backslash-`n` (the
per-character map `escChar`), and in particular escapes `foo"bar\baz` to
`foo\"bar\\baz`. -/
theorem escape_label_value_spec :
    escape_label_value none = "unknown"
    ∧ (∀ s : String, escape_label_value (some s) = String.mk (s.toList.flatMap escChar))
    ∧ escape_label_value (some "foo\"bar\\baz") = "foo\\\"bar\\\\baz" := by
  refine ⟨rfl, escape_some_eq_bind, ?_⟩
  decide

/-! ### Claim C7 -/

/-- C7: for every label value (including the absent one), the escaped output
scanned left to right with escape pairs consumed contains no bare
double-quote and no literal newline, and the newline character does not occur
in it at all. -/
theorem escape_no_unescaped_quote_or_newline (v : Option String) :
    noUnescaped (escape_label_value v).toList = true
    ∧ '\n' ∉ (escape_label_value v).toList := by
  cases v with
  | none => exact ⟨by decide, by decide⟩
  | some s =>
    rw [escape_some_eq_bind]
    exact ⟨noUnescaped_bind_escChar s.toList, newline_not_mem_bind_escChar s.toList⟩

/-! ### Claim C2 -/

/-- C2: when the aggregate query yields no rows, every HTTP endpoint attempt
is unusable, and the remaining queries also fail (all sources down), the
cycle installs the all-zero cache and empty collections without raising, and
`GET /metrics` still answers 200 with the line `pihole_dns_queries_total 0.0`
among the emitted lines of the body. -/
theorem all_sources_failed_zero_snapshot (inp : FetchInputs)
    (hstats : inp.statsResult = [])
    (hapi : ∀ a ∈ inp.apiAttempts, attemptSkipped a = true)
    (hc : inp.clientResults = []) (hd : inp.domainResults = [])
    (hn : inp.networkResults = []) (hq : inp.queryTypeResults = [])
    (hu : inp.upstreamResults = []) (hp : inp.permittedResults = [])
    (hb : inp.blockedResults = []) :
    fetch_pihole_stats inp = allZeroState
    ∧ (do_GET (fetch_pihole_stats inp) "/metrics").status = 200
    ∧ "pihole_dns_queries_total 0.0" ∈ format_metrics (fetch_pihole_stats inp)
    ∧ (do_GET (fetch_pihole_stats inp) "/metrics").body
        = String.intercalate "\n" (format_metrics (fetch_pihole_stats inp)) := by
  have hz : fetch_pihole_stats inp = allZeroState := by
    simp [fetch_pihole_stats, hstats, hc, hd, hn, hq, hu, hp, hb, allZeroState,
      apiFallback_all_skipped inp.apiAttempts hapi]
  refine ⟨hz, ?_, ?_, ?_⟩
  · rw [hz]; rfl
  · rw [hz]; decide
  · rw [hz]; rfl

/-- All-sources-down inputs: no aggregate rows, one non-200 endpoint, one
raising endpoint, one 200 endpoint with a non-JSON body, all other queries
returning no rows. -/
def allFailedInputs : FetchInputs :=
  { statsResult := [],
    apiAttempts := [.resp 500 none, .failed, .resp 200 none],
    clientResults := [], domainResults := [], networkResults := [],
    queryTypeResults := [], upstreamResults := [], permittedResults := [],
    blockedResults := [] }

theorem all_sources_failed_zero_snapshot_witness :
    fetch_pihole_stats allFailedInputs = allZeroState
    ∧ (do_GET (fetch_pihole_stats allFailedInputs) "/metrics").status = 200
    ∧ "pihole_dns_queries_total 0.0" ∈ format_metrics (fetch_pihole_stats allFailedInputs)
    ∧ (do_GET (fetch_pihole_stats allFailedInputs) "/metrics").body
        = String.intercalate "\n" (format_metrics (fetch_pihole_stats allFailedInputs)) :=
  all_sources_failed_zero_snapshot allFailedInputs rfl (by decide) rfl rfl rfl rfl rfl rfl rfl

/-! ### Claim C5 -/

/-- A 200 JSON response in which the first candidate key
(`dns_queries_today`) is present with value `0` and the second (`queries`)
with value `7`. -/
def dataPresentZero : List (String × PyVal) :=
  [("dns_queries_today", .jnum 0), ("queries", .jnum 7)]

/-- A 200 JSON response carrying only `queries = 5`. -/
def dataQueriesFive : List (String × PyVal) :=
  [("queries", .jnum 5)]

/-- A 200 JSON response carrying only `dns_queries_today = 9`. -/
def dataNine : List (String × PyVal) :=
  [("dns_queries_today", .jnum 9)]

/-- C5 counterexample: "first present value wins" fails on the code.  In
`dataPresentZero` the first candidate key `dns_queries_today` is present
(value `0`), yet the resolved `dns_queries_total` is `7` — the `or`-chains
take the first *truthy* value, not the first present one.  Likewise an
endpoint whose only expected field is present but `0` is treated as unusable
and the next endpoint is consulted, rather than stopping there. -/
theorem first_present_value_counterexample :
    objGet dataPresentZero "dns_queries_today" = some (.jnum 0)
    ∧ mcGet (apiFallback [.resp 200 (some dataPresentZero)]) "dns_queries_total" = some 7
    ∧ (7 : Int) ≠ 0
    ∧ apiFallback [.resp 200 (some [("dns_queries_today", PyVal.jnum 0)]),
        .resp 200 (some dataQueriesFive)]
      = apiFallback [.resp 200 (some dataQueriesFive)]
    ∧ mcGet (apiFallback [.resp 200 (some dataQueriesFive)]) "dns_queries_total" = some 5 :=
  ⟨rfl, rfl, by decide, rfl, rfl⟩

/-- C5 amended: each canonical metric field is resolved from an ordered list
of candidate raw keys (with first-level-nested fallbacks) where the first
*truthy* value wins (a present but zero/empty value is passed over); the
fallback skips a failed request, a non-200 response, a non-JSON body, a
response whose probed fields are all falsy, and a response whose field
conversion raises, trying the next endpoint; it stops at the first usable
response; exhaustion yields the all-zero mapping. -/
theorem api_fallback_first_truthy_wins :
    (∀ (a : ApiAttempt) (rest : List ApiAttempt), attemptSkipped a = true →
      apiFallback (a :: rest) = apiFallback rest)
    ∧ apiFallback [] = zerosCache
    ∧ (∀ (data : List (String × PyVal)) (rest : List ApiAttempt) (mc : MetricsCache),
        (optTruthy (resolveFields data).dns_queries
          || optTruthy (resolveFields data).ads_blocked
          || optTruthy (resolveFields data).clients) = true →
        buildApiCache (resolveFields data) = some mc →
        apiFallback (.resp 200 (some data) :: rest) = mc)
    ∧ (∀ (data : List (String × PyVal)) (v : PyVal),
        objGet data "dns_queries_today" = some v → v.truthy = true →
        (resolveFields data).dns_queries = some v)
    ∧ (∀ (data : List (String × PyVal)) (v : PyVal),
        optTruthy (objGet data "dns_queries_today") = false →
        objGet data "queries" = some v → v.truthy = true →
        (resolveFields data).dns_queries = some v) := by
  refine ⟨apiFallback_skip, rfl, ?_, ?_, ?_⟩
  · intro data rest mc hcond hbuild
    simp [apiFallback, hcond, hbuild]
  · intro data v hget hv
    have hdq : pyOr (objGet data "dns_queries_today")
        (pyOr (objGet data "queries") (objGet data "dns_queries_total")) = some v := by
      rw [hget]; simp [pyOr, hv]
    simp [resolveFields, hdq, optTruthy, hv]
  · intro data v hfalsy hget hv
    have hdq : pyOr (objGet data "dns_queries_today")
        (pyOr (objGet data "queries") (objGet data "dns_queries_total")) = some v := by
      rw [pyOr_of_falsy _ _ hfalsy, hget]; simp [pyOr, hv]
    simp [resolveFields, hdq, optTruthy, hv]

theorem api_fallback_first_truthy_wins_witness :
    apiFallback [ApiAttempt.failed] = apiFallback []
    ∧ apiFallback [] = zerosCache
    ∧ apiFallback [ApiAttempt.resp 200 (some dataQueriesFive)]
        = [("dns_queries_total", 5), ("dns_blocked_total", 0),
           ("dns_forwarded_total", 0), ("dns_cached_total", 0),
           ("clients_total", 0), ("devices_total", 0), ("devices_active_24h", 0),
           ("dns_queries_24h", 5), ("dns_blocked_24h", 0),
           ("dns_forwarded_24h", 0), ("dns_cached_24h", 0), ("clients_24h", 0)]
    ∧ (resolveFields dataNine).dns_queries = some (PyVal.jnum 9)
    ∧ (resolveFields dataPresentZero).dns_queries = some (PyVal.jnum 7) := by
  obtain ⟨h1, h2, h3, h4, h5⟩ := api_fallback_first_truthy_wins
  exact ⟨h1 ApiAttempt.failed [] (by decide), h2,
    h3 dataQueriesFive [] _ (by decide) (by decide),
    h4 dataNine (PyVal.jnum 9) rfl rfl,
    h5 dataPresentZero (PyVal.jnum 7) rfl rfl rfl⟩

/-! ### Claim C4 -/

/-- C4: a failing metric group does not affect its siblings.  When the
aggregate query succeeds (first row `stats`) and the per-client query fails
(no rows), the cycle's state carries exactly the aggregate cache of `stats`
and an empty per-client collection, and every other group is a function of
its own query result alone. -/
theorem group_failure_isolation (inp : FetchInputs) (stats : DbRow)
    (rest : List DbRow)
    (hs : inp.statsResult = stats :: rest) (hc : inp.clientResults = []) :
    (fetch_pihole_stats inp).metrics_cache = statsToCache stats
    ∧ (fetch_pihole_stats inp).per_client_metrics = []
    ∧ (fetch_pihole_stats inp).top_domains = inp.domainResults.map domainInfoOfRow
    ∧ (fetch_pihole_stats inp).top_clients = inp.networkResults.map clientInfoOfRow
    ∧ (fetch_pihole_stats inp).query_types = inp.queryTypeResults.map queryTypeOfRow
    ∧ (fetch_pihole_stats inp).upstream_servers = inp.upstreamResults.map upstreamOfRow
    ∧ (fetch_pihole_stats inp).top_permitted_domains
        = inp.permittedResults.map domainCountOfRow
    ∧ (fetch_pihole_stats inp).top_blocked_domains
        = inp.blockedResults.map domainCountOfRow := by
  refine ⟨?_, ?_, rfl, rfl, rfl, rfl, rfl, rfl⟩
  · simp [fetch_pihole_stats, hs]
  · simp [fetch_pihole_stats, hc]

/-- Aggregate row with nonzero values, for the C4 witness cycle. -/
def c4Stats : DbRow :=
  [("queries_total", .vnum 100), ("blocked_total", .vnum 10),
   ("forwarded_total", .vnum 50), ("cached_total", .vnum 40),
   ("unique_clients_total", .vnum 3)]

/-- Witness cycle: aggregate query succeeds, per-client query fails, the
top-domains query succeeds with one row. -/
def c4Inputs : FetchInputs :=
  { statsResult := [c4Stats], apiAttempts := [], clientResults := [],
    domainResults := [[("domain", DbVal.vstr "example.com"),
      ("queries", DbVal.vnum 7), ("blocked", DbVal.vnum 2)]],
    networkResults := [], queryTypeResults := [], upstreamResults := [],
    permittedResults := [], blockedResults := [] }

theorem group_failure_isolation_witness :
    ((fetch_pihole_stats c4Inputs).metrics_cache = statsToCache c4Stats
      ∧ (fetch_pihole_stats c4Inputs).per_client_metrics = []
      ∧ (fetch_pihole_stats c4Inputs).top_domains
          = c4Inputs.domainResults.map domainInfoOfRow
      ∧ (fetch_pihole_stats c4Inputs).top_clients
          = c4Inputs.networkResults.map clientInfoOfRow
      ∧ (fetch_pihole_stats c4Inputs).query_types
          = c4Inputs.queryTypeResults.map queryTypeOfRow
      ∧ (fetch_pihole_stats c4Inputs).upstream_servers
          = c4Inputs.upstreamResults.map upstreamOfRow
      ∧ (fetch_pihole_stats c4Inputs).top_permitted_domains
          = c4Inputs.permittedResults.map domainCountOfRow
      ∧ (fetch_pihole_stats c4Inputs).top_blocked_domains
          = c4Inputs.blockedResults.map domainCountOfRow)
    ∧ mcGet (fetch_pihole_stats c4Inputs).metrics_cache "dns_queries_total" = some 100
    ∧ (fetch_pihole_stats c4Inputs).top_domains
        = [{ domain := "example.com", queries := 7, blocked := 2 }] :=
  ⟨group_failure_isolation c4Inputs c4Stats [] rfl rfl, by decide, by decide⟩

/-! ### Claim C9 -/

/-- Scenario-A aggregate row. -/
def scenarioStatsRow : DbRow :=
  [("queries_total", .vnum 100), ("blocked_total", .vnum 10),
   ("forwarded_total", .vnum 50), ("cached_total", .vnum 40),
   ("unique_clients_total", .vnum 3)]

/-- Scenario-A cycle inputs: only the aggregate query returns a row. -/
def scenarioInputs : FetchInputs :=
  { statsResult := [scenarioStatsRow], apiAttempts := [], clientResults := [],
    domainResults := [], networkResults := [], queryTypeResults := [],
    upstreamResults := [], permittedResults := [], blockedResults := [] }

/-- C9: the aggregate row `\x7bqueries_total: 100, blocked_total: 10,
forwarded_total: 50, cached_total: 40, unique_clients_total: 3\x7d` maps to
`dns_queries_total = 100.0`, `dns_blocked_total = 10.0`,
`dns_forwarded_total = 50.0`, `dns_cached_total = 40.0`,
`clients_total = 3.0`, with the absent raw fields (devices, 24h figures)
defaulting to `0`. -/
theorem scenario_a_stats_mapping :
    mcGet (fetch_pihole_stats scenarioInputs).metrics_cache "dns_queries_total" = some 100
    ∧ mcGet (fetch_pihole_stats scenarioInputs).metrics_cache "dns_blocked_total" = some 10
    ∧ mcGet (fetch_pihole_stats scenarioInputs).metrics_cache "dns_forwarded_total" = some 50
    ∧ mcGet (fetch_pihole_stats scenarioInputs).metrics_cache "dns_cached_total" = some 40
    ∧ mcGet (fetch_pihole_stats scenarioInputs).metrics_cache "clients_total" = some 3
    ∧ mcGet (fetch_pihole_stats scenarioInputs).metrics_cache "devices_total" = some 0
    ∧ mcGet (fetch_pihole_stats scenarioInputs).metrics_cache "devices_active_24h" = some 0
    ∧ mcGet (fetch_pihole_stats scenarioInputs).metrics_cache "dns_queries_24h" = some 0
    ∧ mcRender (fetch_pihole_stats scenarioInputs).metrics_cache "dns_queries_total" = "100.0"
    ∧ mcRender (fetch_pihole_stats scenarioInputs).metrics_cache "dns_blocked_total" = "10.0"
    ∧ mcRender (fetch_pihole_stats scenarioInputs).metrics_cache "clients_total" = "3.0" := by
  decide

/-! ### Claim C3 -/

/-- Fifty `network`-table rows, as collected under the query's `LIMIT 50`. -/
def fiftyNetworkRows : List DbRow :=
  (List.range 50).map (fun i =>
    [("hwaddr", DbVal.vstr ("aa:bb:cc:dd:ee:" ++ toString i)),
     ("macVendor", DbVal.vstr "Vendor"),
     ("numQueries", DbVal.vnum (100 - (i : Int)))])

/-- Cycle inputs whose network query collected 50 rows. -/
def fiftyClientInputs : FetchInputs :=
  { statsResult := [], apiAttempts := [], clientResults := [],
    domainResults := [], networkResults := fiftyNetworkRows,
    queryTypeResults := [], upstreamResults := [], permittedResults := [],
    blockedResults := [] }

/-- C3 counterexample: the claim's 20-entry cap does not hold for the
client series.  With 50 collected network clients the encoder renders 50
`pihole_network_client_queries_total` lines, not 20. -/
theorem network_clients_uncapped_counterexample :
    (fetch_pihole_stats fiftyClientInputs).top_clients.length = 50
    ∧ (networkClientLines (fetch_pihole_stats fiftyClientInputs)).length = 50
    ∧ ¬ (networkClientLines (fetch_pihole_stats fiftyClientInputs)).length ≤ 20 := by
  have h1 : (fetch_pihole_stats fiftyClientInputs).top_clients.length = 50 := rfl
  have h2 : (networkClientLines (fetch_pihole_stats fiftyClientInputs)).length = 50 := by
    unfold networkClientLines
    rw [List.length_map]
    exact h1
  exact ⟨h1, h2, by rw [h2]; omega⟩

/-- C3 amended: the encoder caps the four domain series (top, blocked,
permitted, blocked-domains) at 20 rendered entries, but renders one line per
collected entry for the network-client and per-client series (up to the
50-row query limit), with no encoder-side cap. -/
theorem encoder_cap_domains_not_clients (st : ExporterState) :
    (domainQueriesLines st).length ≤ 20
    ∧ (domainBlockedLines st).length ≤ 20
    ∧ (permittedLines st).length ≤ 20
    ∧ (blockedLines st).length ≤ 20
    ∧ (networkClientLines st).length = st.top_clients.length
    ∧ (clientQueriesLines st).length = st.per_client_metrics.length := by
  refine ⟨?_, ?_, ?_, ?_, ?_, ?_⟩
  · simp only [domainQueriesLines, List.length_map, List.length_take]
    omega
  · simp only [domainBlockedLines, List.length_map, List.length_take]
    omega
  · simp only [permittedLines, List.length_map, List.length_take]
    omega
  · simp only [blockedLines, List.length_map, List.length_take]
    omega
  · simp only [networkClientLines, List.length_map]
  · simp only [clientQueriesLines, List.length_map]

/-! ### Claim C1 -/

/-- The shared state left by a previous refresh cycle. -/
def prevCycleState : ExporterState :=
  { metrics_cache := [("dns_queries_total", 5)],
    per_client_metrics := [],
    top_domains := [{ domain := "old.example", queries := 5, blocked := 0 }],
    top_clients := [], query_types := [], upstream_servers := [],
    top_permitted_domains := [], top_blocked_domains := [] }

/-- The next refresh cycle's query results, with different aggregate values
and different top domains. -/
def newCycleInputs : FetchInputs :=
  { statsResult := [[("queries_total", DbVal.vnum 100)]], apiAttempts := [],
    clientResults := [],
    domainResults := [[("domain", DbVal.vstr "new.example"),
      ("queries", DbVal.vnum 9), ("blocked", DbVal.vnum 1)]],
    networkResults := [], queryTypeResults := [], upstreamResults := [],
    permittedResults := [], blockedResults := [] }

/-- C1 counterexample: replacement is not atomic.  A reader that runs after
the refresh cycle's first global write observes the new cycle's
`metrics_cache` together with the previous cycle's `top_domains` — a state
that is neither the old snapshot nor the new one. -/
theorem replace_atomicity_counterexample :
    (observeAt prevCycleState newCycleInputs 1).metrics_cache
        = (fetch_pihole_stats newCycleInputs).metrics_cache
    ∧ (observeAt prevCycleState newCycleInputs 1).top_domains
        = prevCycleState.top_domains
    ∧ prevCycleState.metrics_cache ≠ (fetch_pihole_stats newCycleInputs).metrics_cache
    ∧ prevCycleState.top_domains ≠ (fetch_pihole_stats newCycleInputs).top_domains
    ∧ observeAt prevCycleState newCycleInputs 1 ≠ prevCycleState
    ∧ observeAt prevCycleState newCycleInputs 1 ≠ fetch_pihole_stats newCycleInputs := by
  decide

/-- C1 amended: the refresh cycle rebinds the globals one by one, so a
scrape overlapping a refresh can observe fields of the new cycle mixed with
fields of the old one; a scrape that does not overlap a refresh — before its
first write or after its last — observes a single cycle's fields as one
unit: after all writes the state is exactly the newly fetched snapshot. -/
theorem replace_per_cycle_completion (st0 : ExporterState) (inp : FetchInputs) :
    observeAt st0 inp 0 = st0
    ∧ observeAt st0 inp (cycleWrites inp).length = fetch_pihole_stats inp :=
  ⟨rfl, rfl⟩

/-! ### Claim C8 -/

/-- C8: the docker-exec database path yields the unavailable outcome (the
empty row sequence, no exception escaping) on the fixed 10-second timeout
expiring, on a non-zero exit status, and on malformed (unparseable) output
among the non-blank lines; empty or all-blank output likewise yields the
empty row sequence without raising. -/
theorem docker_query_failure_modes :
    FTL_QUERY_TIMEOUT = 10
    ∧ query_ftl_database_docker DockerOutcome.timeoutExpired = []
    ∧ (∀ (rc : Int) (outLines : List OutLine), rc ≠ 0 →
        query_ftl_database_docker (DockerOutcome.completed rc outLines) = [])
    ∧ (∀ (rc : Int) (outLines : List OutLine),
        ((outLines.filter (fun l => !lineBlank l)).all lineOk) = false →
        query_ftl_database_docker (DockerOutcome.completed rc outLines) = [])
    ∧ (∀ rc : Int, query_ftl_database_docker (DockerOutcome.completed rc []) = [])
    ∧ (∀ (rc : Int) (outLines : List OutLine), (outLines.all lineBlank) = true →
        query_ftl_database_docker (DockerOutcome.completed rc outLines) = []) := by
  refine ⟨rfl, rfl, ?_, ?_, ?_, ?_⟩
  · intro rc outLines h
    have hrc : (rc == 0) = false := beq_eq_false_iff_ne.mpr h
    simp [query_ftl_database_docker, hrc]
  · intro rc outLines h
    simp only [query_ftl_database_docker, h]
    split
    · simp
    · rfl
  · intro rc
    simp [query_ftl_database_docker]
  · intro rc outLines h
    have hany : (outLines.any fun l => !lineBlank l) = false := by
      rw [List.any_eq_false]
      intro x hx
      rw [List.all_eq_true] at h
      simp [h x hx]
    simp [query_ftl_database_docker, hany]

theorem docker_query_failure_modes_witness :
    query_ftl_database_docker
        (DockerOutcome.completed 1 [OutLine.ok [("queries_total", DbVal.vnum 5)]]) = []
    ∧ query_ftl_database_docker (DockerOutcome.completed 0 [OutLine.malformed]) = []
    ∧ query_ftl_database_docker (DockerOutcome.completed 0 []) = []
    ∧ query_ftl_database_docker (DockerOutcome.completed 0 [OutLine.blank]) = [] := by
  obtain ⟨-, -, h3, h4, h5, h6⟩ := docker_query_failure_modes
  exact ⟨h3 1 _ (by decide), h4 0 _ (by decide), h5 0, h6 0 _ (by decide)⟩

/-! ### Claim C10 -/

/-- C10: every rendered `pihole_network_client_queries_total` series line for
a fetched state carries the empty `ip` label: the `network`-table rows never
populate an IP address (the source hard-codes `"ip": ""`), so the encoder
always emits `ip=""`. -/
theorem network_client_ip_label_empty (inp : FetchInputs) (line : String)
    (h : line ∈ networkClientLines (fetch_pihole_stats inp)) :
    ∃ mac name q : String,
      line = "pihole_network_client_queries_total\x7bmac=\"" ++ mac
        ++ "\",name=\"" ++ name ++ "\",ip=\"\"\x7d " ++ q := by
  simp only [networkClientLines, fetch_pihole_stats, List.map_map, List.mem_map] at h
  obtain ⟨row, -, rfl⟩ := h
  refine ⟨escape_label_value (some (clientInfoOfRow row).mac),
    escape_label_value (some (clientInfoOfRow row).name),
    fmtFloat (clientInfoOfRow row).queries, ?_⟩
  show "pihole_network_client_queries_total\x7bmac=\""
      ++ escape_label_value (some (clientInfoOfRow row).mac)
      ++ "\",name=\"" ++ escape_label_value (some (clientInfoOfRow row).name)
      ++ "\",ip=\"" ++ escape_label_value (some "")
      ++ "\"\x7d " ++ fmtFloat (clientInfoOfRow row).queries = _
  rw [show escape_label_value (some "") = "" from rfl]
  rw [String.append_empty]
  rw [String.append_assoc _ "\",ip=\"" "\"\x7d "]
  rfl

/-- Witness cycle with a single network row. -/
def oneClientInputs : FetchInputs :=
  { statsResult := [], apiAttempts := [], clientResults := [],
    domainResults := [],
    networkResults := [[("hwaddr", DbVal.vstr "aa:bb"),
      ("macVendor", DbVal.vstr "Vendor"), ("numQueries", DbVal.vnum 4)]],
    queryTypeResults := [], upstreamResults := [], permittedResults := [],
    blockedResults := [] }

theorem network_client_ip_label_empty_witness :
    ∃ mac name q : String,
      "pihole_network_client_queries_total\x7bmac=\"aa:bb\",name=\"Vendor\",ip=\"\"\x7d 4.0"
        = "pihole_network_client_queries_total\x7bmac=\"" ++ mac
          ++ "\",name=\"" ++ name ++ "\",ip=\"\"\x7d " ++ q :=
  network_client_ip_label_empty oneClientInputs _ (by decide)
